import Mathlib

set_option maxHeartbeats 1000000

/-!
A shallow embedding of the SwitcherLabs Go SDK (`switcherlabs.go`) and proofs
about its flag-evaluation engine: the layered resolution algorithm
(identity override → global override → dynamic rules → static default),
the time-windowed state refresh, and the identity cache.
-/

deriving instance DecidableEq for Except

namespace SwitcherLabs

/-- Flag value type tag for boolean flags (Go constant `typeBoolean`). -/
def typeBoolean : String := "boolean"

/-- Flag value type tag for number flags (Go constant `typeNumber`). -/
def typeNumber : String := "number"

/-- Flag value type tag for string flags (Go constant `typeString`). -/
def typeString : String := "string"

/-- Snapshot refresh window in seconds (Go `stateRefreshRate = 60 * time.Second`). -/
def stateRefreshRate : Int := 60

/-- Identity cache freshness window in seconds (Go `identityRefreshRate = 5 * time.Second`). -/
def identityRefreshRate : Int := 5

/-- Runtime value of a flag, override, or rule operand. Go stores these as
`interface\x7b\x7d`; we embed them as a tagged union over the three supported
kinds. Go `float64` numbers are embedded as integers: the properties proved
here use the numeric comparison operators only generically, never any
floating-point-specific behaviour. -/
inductive Value where
  | vBool : Bool → Value
  | vNumber : Int → Value
  | vString : String → Value
deriving DecidableEq

/-- Errors an evaluation can produce. `errFlagNotFound` and
`errInvalidFlagType` are the Go sentinel errors `ErrFlagNotFound` and
`ErrInvalidFlagType`. `fetchFailure msg` is a transport/decoding failure
returned by an external collaborator. `goPanic` marks an execution on which
the Go code performs a run-time panic (a failed unchecked type assertion, a
nil map-function call, or a nil pointer dereference): the Go function does
not return on such executions, so `goPanic` propagating to the top of the
model corresponds to the Go program crashing, not to an error return.
`outOfFuel` is an artifact of the embedding: the Go recursion over dynamic
rules is unbounded, and the model cuts it off at a caller-chosen depth. -/
inductive Err where
  | errFlagNotFound : Err
  | errInvalidFlagType : Err
  | fetchFailure : String → Err
  | goPanic : Err
  | outOfFuel : Err
deriving DecidableEq

/-- Go `boolOperations` map (`==`, `!=`); a lookup of an absent operator
yields `none`, modelling Go's nil function value. -/
def boolOperations : String → Option (Bool → Bool → Bool)
  | "==" => some (fun a b => a == b)
  | "!=" => some (fun a b => a != b)
  | _ => none

/-- Go `numberOperations` map (`==`, `!=`, `<`, `<=`, `>`, `>=`). -/
def numberOperations : String → Option (Int → Int → Bool)
  | "==" => some (fun a b => a == b)
  | "!=" => some (fun a b => a != b)
  | "<" => some (fun a b => decide (a < b))
  | "<=" => some (fun a b => decide (a ≤ b))
  | ">" => some (fun a b => decide (a > b))
  | ">=" => some (fun a b => decide (a ≥ b))
  | _ => none

/-- Go `stringOperations` map (`==`, `!=`, `<`, `<=`, `>`, `>=`). -/
def stringOperations : String → Option (String → String → Bool)
  | "==" => some (fun a b => a == b)
  | "!=" => some (fun a b => a != b)
  | "<" => some (fun a b => decide (a < b))
  | "<=" => some (fun a b => decide (a ≤ b))
  | ">" => some (fun a b => decide (a > b))
  | ">=" => some (fun a b => decide (a ≥ b))
  | _ => none

/-- Go struct `flag.DynamicRules[i].Expression`. -/
structure Expression where
  flagID : String
  op : String
  value : Value
deriving DecidableEq

/-- Go struct: one element of `flag.DynamicRules`. -/
structure DynamicRule where
  expression : Expression
  value : Value
deriving DecidableEq

/-- Go struct `flag`. -/
structure Flag where
  id : String
  key : String
  type : String
  value : Value
  dynamicRules : List DynamicRule
deriving DecidableEq

/-- Go struct `override`. -/
structure Override where
  id : String
  key : String
  value : Value
deriving DecidableEq

/-- Go struct `identity`. `overrides` is the Go map from flag key to value,
embedded as an association list; `fetchedAt` is the local timestamp stamped
by `fetchIdentity`. -/
structure Identity where
  id : String
  identifier : String
  overrides : List (String × Value)
  fetchedAt : Int
deriving DecidableEq

/-- Go struct `FlagOptions`. -/
structure FlagOptions where
  key : String
  identifier : String
deriving DecidableEq

/-- Lookup in a Go map embedded as an association list. -/
def mapLookup (m : List (String × α)) (k : String) : Option α :=
  match m with
  | [] => none
  | (k1, v) :: rest => if k1 = k then some v else mapLookup rest k

/-- Insertion (`m[k] = v`) in a Go map embedded as an association list:
any existing binding of `k` is replaced. -/
def mapInsert (m : List (String × α)) (k : String) (v : α) : List (String × α) :=
  (m.filter (fun p => p.1 != k)) ++ [(k, v)]

/-- Go `identity.isStale`: `i.fetchedAt.Add(identityRefreshRate).Before(now)`,
with `Before` strict. -/
def Identity.isStale (i : Identity) (now : Int) : Bool :=
  decide (i.fetchedAt + identityRefreshRate < now)

/-- The mutable fields of the Go `client` struct that the core reads and
writes: the key-indexed and id-indexed flag maps, the global override map,
the identity cache, and the last refresh timestamp. -/
structure ClientState where
  flags : List (String × Flag)
  flagsByID : List (String × Flag)
  overrides : List (String × Override)
  identities : List (String × Identity)
  lastRefresh : Int
deriving DecidableEq

/-- The decoded body of a successful `/sdk/initialize` response
(the anonymous `response` struct inside Go `refreshState`). -/
structure StateResponse where
  flags : List Flag
  overrides : List Override
deriving DecidableEq

/-- The environment of one evaluation: the current clock reading and the two
external collaborators (Go's HTTP `call`s), each either succeeding with a
decoded payload or failing with a transport/decoding error message. -/
structure Env where
  now : Int
  fetchStateResult : Except String StateResponse
  fetchIdentityResult : String → Except String Identity

/-- Go `client.refreshState`: if `s.lastRefresh.Add(stateRefreshRate).After(now)`
the state is still valid and nothing happens; otherwise the state endpoint is
called, and on success fresh key- and id-indexed flag maps and the override
map are rebuilt from scratch, stale identities are swept, and `lastRefresh`
is set to `now`. On failure the error is returned with the state untouched. -/
def refreshState (env : Env) (s : ClientState) : ClientState × Option Err :=
  if s.lastRefresh + stateRefreshRate > env.now then (s, none)
  else
    match env.fetchStateResult with
    | .error msg => (s, some (.fetchFailure msg))
    | .ok resp =>
      ({ flags := resp.flags.foldl (fun m f => mapInsert m f.key f) [],
         flagsByID := resp.flags.foldl (fun m f => mapInsert m f.id f) [],
         overrides := resp.overrides.foldl (fun m o => mapInsert m o.key o) [],
         identities := s.identities.filter (fun p => ! p.2.isStale env.now),
         lastRefresh := env.now }, none)

/-- The cache-miss path of Go `client.fetchIdentity` (everything after the
cache check): call the identity endpoint, stamp the result with
`fetchedAt = now`, and insert it into the cache under the *response's*
`Identifier` field (`s.identities[newIdentity.Identifier] = newIdentity`). -/
def fetchIdentityMiss (env : Env) (s : ClientState) (identifier : String) :
    ClientState × Except Err Identity :=
  match env.fetchIdentityResult identifier with
  | .error msg => (s, .error (.fetchFailure msg))
  | .ok raw =>
    let newIdentity : Identity := { raw with fetchedAt := env.now }
    ({ s with identities := mapInsert s.identities newIdentity.identifier newIdentity },
     .ok newIdentity)

/-- Go `client.fetchIdentity`: serve a cached, non-stale entry without an
external call; otherwise take the cache-miss path. -/
def fetchIdentity (env : Env) (s : ClientState) (identifier : String) :
    ClientState × Except Err Identity :=
  match mapLookup s.identities identifier with
  | some i => if i.isStale env.now then fetchIdentityMiss env s identifier else (s, .ok i)
  | none => fetchIdentityMiss env s identifier

/-- Go unchecked type assertion `v.(bool)`: the boolean payload on success,
a run-time panic on mismatch. -/
def assertBool : Value → Bool × Option Err
  | .vBool b => (b, none)
  | _ => (false, some .goPanic)

/-- Go unchecked type assertion `v.(float64)`. -/
def assertNumber : Value → Int × Option Err
  | .vNumber n => (n, none)
  | _ => (0, some .goPanic)

/-- Go unchecked type assertion `v.(string)`. -/
def assertString : Value → String × Option Err
  | .vString str => (str, none)
  | _ => ("", some .goPanic)

/-- Outcome of running a flag's dynamic-rule loop: a rule matched and
produced a value, no rule matched (the loop fell through), or the loop
aborted (error return or panic). -/
inductive RulesOutcome (α : Type) where
  | noMatch : RulesOutcome α
  | matched : α → RulesOutcome α
  | failed : Err → RulesOutcome α
deriving DecidableEq

/-- The three typed entry points, abstracted so that the dynamic-rule loop
can recurse through them. `clientEval fuel` below instantiates this with the
full evaluator of recursion depth `fuel`. -/
structure Evaluator where
  boolFlag : Env → ClientState → FlagOptions → ClientState × (Bool × Option Err)
  numberFlag : Env → ClientState → FlagOptions → ClientState × (Int × Option Err)
  stringFlag : Env → ClientState → FlagOptions → ClientState × (String × Option Err)

/-- The evaluator every recursive call resolves to once the modelling depth
is exhausted. The Go recursion over dynamic rules has no cycle guard and is
unbounded; executions that would recurse deeper than the chosen depth end in
the artificial `outOfFuel` error. -/
def outOfFuelEvaluator : Evaluator where
  boolFlag := fun _ s _ => (s, (false, some .outOfFuel))
  numberFlag := fun _ s _ => (s, (0, some .outOfFuel))
  stringFlag := fun _ s _ => (s, ("", some .outOfFuel))

/-- Evaluation of one dynamic rule's expression: resolve the referenced flag
by id, recursively evaluate it at its own declared type through `ev`, and
apply the operator-table entry to the resolved value and the rule's
comparison value. This is the switch body that appears verbatim inside the
rule loop of each of Go `BoolFlag`, `NumberFlag` and `StringFlag`. A missing
id in `flagsByID` gives a nil `*flag` in Go and the immediate field access
`expressionFlag.Key` panics, rendered `.goPanic`; a comparison value of the
wrong runtime kind fails the unchecked assertion (panic); an operator absent
from the table gives a nil function whose call panics. A referenced flag
whose type tag is none of the three known tags matches no case of the Go
switch, so the rule is skipped: rendered `.ok false` (no match, loop
continues). -/
def evalRuleExprWith (ev : Evaluator) (env : Env) (s : ClientState)
    (identifier : String) (rule : DynamicRule) : ClientState × Except Err Bool :=
  match mapLookup s.flagsByID rule.expression.flagID with
  | none => (s, .error .goPanic)
  | some expressionFlag =>
    if expressionFlag.type = typeBoolean then
      match ev.boolFlag env s { key := expressionFlag.key, identifier := identifier } with
      | (s1, (_, some err)) => (s1, .error err)
      | (s1, (flagValue, none)) =>
        match rule.expression.value with
        | .vBool ruleExpressionValue =>
          match boolOperations rule.expression.op with
          | none => (s1, .error .goPanic)
          | some op => (s1, .ok (op flagValue ruleExpressionValue))
        | _ => (s1, .error .goPanic)
    else if expressionFlag.type = typeNumber then
      match ev.numberFlag env s { key := expressionFlag.key, identifier := identifier } with
      | (s1, (_, some err)) => (s1, .error err)
      | (s1, (flagValue, none)) =>
        match rule.expression.value with
        | .vNumber ruleExpressionValue =>
          match numberOperations rule.expression.op with
          | none => (s1, .error .goPanic)
          | some op => (s1, .ok (op flagValue ruleExpressionValue))
        | _ => (s1, .error .goPanic)
    else if expressionFlag.type = typeString then
      match ev.stringFlag env s { key := expressionFlag.key, identifier := identifier } with
      | (s1, (_, some err)) => (s1, .error err)
      | (s1, (flagValue, none)) =>
        match rule.expression.value with
        | .vString ruleExpressionValue =>
          match stringOperations rule.expression.op with
          | none => (s1, .error .goPanic)
          | some op => (s1, .ok (op flagValue ruleExpressionValue))
        | _ => (s1, .error .goPanic)
    else (s, .ok false)

/-- The dynamic-rule loop of Go `BoolFlag` (lines 179–232): rules in declared
order, first matching rule returns `rule.Value.(bool)`, an error return from
a recursive evaluation aborts the loop, falling off the end means no match. -/
def boolRulesWith (ev : Evaluator) (env : Env) (s : ClientState)
    (identifier : String) (rules : List DynamicRule) : ClientState × RulesOutcome Bool :=
  match rules with
  | [] => (s, .noMatch)
  | rule :: rest =>
    match evalRuleExprWith ev env s identifier rule with
    | (s1, .error e) => (s1, .failed e)
    | (s1, .ok cond) =>
      if cond then
        match rule.value with
        | .vBool ruleValue => (s1, .matched ruleValue)
        | _ => (s1, .failed .goPanic)
      else boolRulesWith ev env s1 identifier rest

/-- The dynamic-rule loop of Go `NumberFlag` (lines 286–339). -/
def numberRulesWith (ev : Evaluator) (env : Env) (s : ClientState)
    (identifier : String) (rules : List DynamicRule) : ClientState × RulesOutcome Int :=
  match rules with
  | [] => (s, .noMatch)
  | rule :: rest =>
    match evalRuleExprWith ev env s identifier rule with
    | (s1, .error e) => (s1, .failed e)
    | (s1, .ok cond) =>
      if cond then
        match rule.value with
        | .vNumber ruleValue => (s1, .matched ruleValue)
        | _ => (s1, .failed .goPanic)
      else numberRulesWith ev env s1 identifier rest

/-- The dynamic-rule loop of Go `StringFlag` (lines 393–446). -/
def stringRulesWith (ev : Evaluator) (env : Env) (s : ClientState)
    (identifier : String) (rules : List DynamicRule) : ClientState × RulesOutcome String :=
  match rules with
  | [] => (s, .noMatch)
  | rule :: rest =>
    match evalRuleExprWith ev env s identifier rule with
    | (s1, .error e) => (s1, .failed e)
    | (s1, .ok cond) =>
      if cond then
        match rule.value with
        | .vString ruleValue => (s1, .matched ruleValue)
        | _ => (s1, .failed .goPanic)
      else stringRulesWith ev env s1 identifier rest

/-- The identity phase of Go `BoolFlag` (lines 162–172): with a non-empty
identifier, fetch the identity; a fetch failure makes `BoolFlag` return
`false, nil` (the failure is swallowed — unlike `NumberFlag`/`StringFlag`);
an identity override for the key is asserted to bool and returned. `some r`
means the phase returned `r` from the function; `none` means fall through. -/
def boolIdentityPhase (env : Env) (s : ClientState) (opts : FlagOptions) :
    ClientState × Option (Bool × Option Err) :=
  if opts.identifier = "" then (s, none)
  else
    match fetchIdentity env s opts.identifier with
    | (s1, .error _) => (s1, some (false, none))
    | (s1, .ok i) =>
      match mapLookup i.overrides opts.key with
      | some val => (s1, some (assertBool val))
      | none => (s1, none)

/-- The identity phase of Go `NumberFlag` (lines 269–279): a fetch failure
is propagated as `0, err`. -/
def numberIdentityPhase (env : Env) (s : ClientState) (opts : FlagOptions) :
    ClientState × Option (Int × Option Err) :=
  if opts.identifier = "" then (s, none)
  else
    match fetchIdentity env s opts.identifier with
    | (s1, .error e) => (s1, some (0, some e))
    | (s1, .ok i) =>
      match mapLookup i.overrides opts.key with
      | some val => (s1, some (assertNumber val))
      | none => (s1, none)

/-- The identity phase of Go `StringFlag` (lines 376–386): a fetch failure
is propagated as `"", err`. -/
def stringIdentityPhase (env : Env) (s : ClientState) (opts : FlagOptions) :
    ClientState × Option (String × Option Err) :=
  if opts.identifier = "" then (s, none)
  else
    match fetchIdentity env s opts.identifier with
    | (s1, .error e) => (s1, some ("", some e))
    | (s1, .ok i) =>
      match mapLookup i.overrides opts.key with
      | some val => (s1, some (assertString val))
      | none => (s1, none)

/-- Go `BoolFlag` after the identity phase (lines 174–235): global override,
then the dynamic-rule loop, then the flag's default value. -/
def boolAfterIdentityWith (ev : Evaluator) (env : Env) (s : ClientState)
    (opts : FlagOptions) (f : Flag) : ClientState × (Bool × Option Err) :=
  match mapLookup s.overrides opts.key with
  | some o => (s, assertBool o.value)
  | none =>
    match boolRulesWith ev env s opts.identifier f.dynamicRules with
    | (s1, .matched v) => (s1, (v, none))
    | (s1, .failed e) => (s1, (false, some e))
    | (s1, .noMatch) => (s1, assertBool f.value)

/-- Go `NumberFlag` after the identity phase (lines 281–343). -/
def numberAfterIdentityWith (ev : Evaluator) (env : Env) (s : ClientState)
    (opts : FlagOptions) (f : Flag) : ClientState × (Int × Option Err) :=
  match mapLookup s.overrides opts.key with
  | some o => (s, assertNumber o.value)
  | none =>
    match numberRulesWith ev env s opts.identifier f.dynamicRules with
    | (s1, .matched v) => (s1, (v, none))
    | (s1, .failed e) => (s1, (0, some e))
    | (s1, .noMatch) => (s1, assertNumber f.value)

/-- Go `StringFlag` after the identity phase (lines 388–449). -/
def stringAfterIdentityWith (ev : Evaluator) (env : Env) (s : ClientState)
    (opts : FlagOptions) (f : Flag) : ClientState × (String × Option Err) :=
  match mapLookup s.overrides opts.key with
  | some o => (s, assertString o.value)
  | none =>
    match stringRulesWith ev env s opts.identifier f.dynamicRules with
    | (s1, .matched v) => (s1, (v, none))
    | (s1, .failed e) => (s1, ("", some e))
    | (s1, .noMatch) => (s1, assertString f.value)

/-- The body of Go `BoolFlag` after the `refreshState` line (lines 136–235):
key lookup, type check, identity phase, then the rest. -/
def BoolFlagBodyWith (ev : Evaluator) (env : Env) (s : ClientState)
    (opts : FlagOptions) : ClientState × (Bool × Option Err) :=
  match mapLookup s.flags opts.key with
  | none => (s, (false, some .errFlagNotFound))
  | some f =>
    if f.type ≠ typeBoolean then (s, (false, some .errInvalidFlagType))
    else
      match boolIdentityPhase env s opts with
      | (s1, some result) => (s1, result)
      | (s1, none) => boolAfterIdentityWith ev env s1 opts f

/-- The body of Go `NumberFlag` after the `refreshState` line (lines 243–343). -/
def NumberFlagBodyWith (ev : Evaluator) (env : Env) (s : ClientState)
    (opts : FlagOptions) : ClientState × (Int × Option Err) :=
  match mapLookup s.flags opts.key with
  | none => (s, (0, some .errFlagNotFound))
  | some f =>
    if f.type ≠ typeNumber then (s, (0, some .errInvalidFlagType))
    else
      match numberIdentityPhase env s opts with
      | (s1, some result) => (s1, result)
      | (s1, none) => numberAfterIdentityWith ev env s1 opts f

/-- The body of Go `StringFlag` after the `refreshState` line (lines 350–449). -/
def StringFlagBodyWith (ev : Evaluator) (env : Env) (s : ClientState)
    (opts : FlagOptions) : ClientState × (String × Option Err) :=
  match mapLookup s.flags opts.key with
  | none => (s, ("", some .errFlagNotFound))
  | some f =>
    if f.type ≠ typeString then (s, ("", some .errInvalidFlagType))
    else
      match stringIdentityPhase env s opts with
      | (s1, some result) => (s1, result)
      | (s1, none) => stringAfterIdentityWith ev env s1 opts f

/-- The full evaluator at recursion depth `fuel`. Each typed entry point
first calls `refreshState` and **discards its return value** — exactly as Go
lines 134, 241, 348 (`s.refreshState()` with the error ignored) — then runs
its body against the resulting state; recursive calls made by the rule loop
go through the evaluator of depth `fuel - 1`. -/
def clientEval : Nat → Evaluator
  | 0 => outOfFuelEvaluator
  | fuel + 1 =>
    { boolFlag := fun env s opts =>
        BoolFlagBodyWith (clientEval fuel) env (refreshState env s).1 opts,
      numberFlag := fun env s opts =>
        NumberFlagBodyWith (clientEval fuel) env (refreshState env s).1 opts,
      stringFlag := fun env s opts =>
        StringFlagBodyWith (clientEval fuel) env (refreshState env s).1 opts }

/-- Go `client.BoolFlag` at recursion depth `fuel`. -/
def BoolFlag (fuel : Nat) (env : Env) (s : ClientState) (opts : FlagOptions) :
    ClientState × (Bool × Option Err) :=
  (clientEval fuel).boolFlag env s opts

/-- Go `client.NumberFlag` at recursion depth `fuel`. -/
def NumberFlag (fuel : Nat) (env : Env) (s : ClientState) (opts : FlagOptions) :
    ClientState × (Int × Option Err) :=
  (clientEval fuel).numberFlag env s opts

/-- Go `client.StringFlag` at recursion depth `fuel`. -/
def StringFlag (fuel : Nat) (env : Env) (s : ClientState) (opts : FlagOptions) :
    ClientState × (String × Option Err) :=
  (clientEval fuel).stringFlag env s opts

/-- Written from the specification's wording of the resolution order
(spec §4.3, §8), for comparison with the code: the identity's override for
the key if present, otherwise the global override for the key if present,
otherwise the outcome of the dynamic-rule chain if it produced one (or its
failure), otherwise the flag's stored default value; every stored value is
read through the entry point's type assertion. -/
def precedenceSpec (assert : Value → α × Option Err) (zeroVal : α)
    (identOverride : Option Value) (globalOverride : Option Value)
    (rules : RulesOutcome α) (defaultValue : Value) : α × Option Err :=
  match identOverride with
  | some v => assert v
  | none =>
    match globalOverride with
    | some v => assert v
    | none =>
      match rules with
      | .matched v => (v, none)
      | .failed e => (zeroVal, some e)
      | .noMatch => assert defaultValue

/-! Concrete fixtures used to exercise the theorems on closed inputs. -/

/-- Boolean flag with default `true` and no rules. -/
def bFlag : Flag := ⟨"f1", "bflag", typeBoolean, .vBool true, []⟩

/-- Number flag with default `10` and no rules. -/
def nFlag : Flag := ⟨"f2", "nflag", typeNumber, .vNumber 10, []⟩

/-- String flag with default `"free"` and no rules. -/
def sFlag : Flag := ⟨"f3", "sflag", typeString, .vString "free", []⟩

/-- String flag with two dynamic rules, both keyed on `bflag == true`
(the spec §8 `tier` example): the first yields `"beta"`, the second
`"never"`. -/
def ruleFlag : Flag :=
  ⟨"f4", "rflag", typeString, .vString "free",
    [⟨⟨"f1", "==", .vBool true⟩, .vString "beta"⟩,
     ⟨⟨"f1", "==", .vBool true⟩, .vString "never"⟩]⟩

/-- Boolean flag whose single rule uses the operator `<`, absent from
`boolOperations`. -/
def badOpFlag : Flag :=
  ⟨"f5", "badop", typeBoolean, .vBool false, [⟨⟨"f1", "<", .vBool true⟩, .vBool true⟩]⟩

/-- Boolean flag whose single rule references the flag id `"zzz"`, absent
from the id-indexed snapshot. -/
def missRefFlag : Flag :=
  ⟨"f6", "missref", typeBoolean, .vBool false, [⟨⟨"zzz", "==", .vBool true⟩, .vBool true⟩]⟩

/-- A cached identity for subject `"user_123"` with overrides for the three
plain flags, fetched at time 0. -/
def identW : Identity :=
  ⟨"i1", "user_123",
    [("bflag", .vBool false), ("nflag", .vNumber 99), ("sflag", .vString "vip")], 0⟩

/-- A populated client state: all six fixture flags, no global overrides,
`identW` cached, last refreshed at time 0. -/
def stateW : ClientState :=
  { flags := [("bflag", bFlag), ("nflag", nFlag), ("sflag", sFlag),
              ("rflag", ruleFlag), ("badop", badOpFlag), ("missref", missRefFlag)],
    flagsByID := [("f1", bFlag), ("f2", nFlag), ("f3", sFlag),
                  ("f4", ruleFlag), ("f5", badOpFlag), ("f6", missRefFlag)],
    overrides := [],
    identities := [("user_123", identW)],
    lastRefresh := 0 }

/-- The same client state with an empty identity cache. -/
def stateNoId : ClientState := { stateW with identities := [] }

/-- Environment at time 3 (snapshot and cached identity both fresh): the
state endpoint fails, the identity endpoint knows `"user_123"`. -/
def envW : Env :=
  ⟨3, .error "boom", fun idf => if idf = "user_123" then .ok identW else .error "missing"⟩

/-- Environment at time 3 where both endpoints fail. -/
def envIdFail : Env := ⟨3, .error "boom", fun _ => .error "down"⟩

/-- Environment at time 100 (snapshot refresh due) where the state endpoint
fails. -/
def envDue : Env := ⟨100, .error "boom", fun _ => .error "down"⟩

/-- A state response carrying one flag and no overrides. -/
def respW : StateResponse := ⟨[bFlag], []⟩

/-- Environment at time 100 (snapshot refresh due) where the state endpoint
succeeds with `respW`. -/
def envDueOk : Env := ⟨100, .ok respW, fun _ => .error "down"⟩

/-- Environment at time 5 — exactly `identW.fetchedAt + identityRefreshRate` —
whose identity endpoint would answer a distinguishable fresh record. -/
def env7 : Env := ⟨5, .error "x", fun _ => .ok ⟨"fresh", "user_123", [], 0⟩⟩

/-- Environment at time 9 (the cached `identW` is stale) whose identity
endpoint knows `"user_123"`. -/
def envLate : Env :=
  ⟨9, .error "x", fun idf => if idf = "user_123" then .ok identW else .error "missing"⟩

/-! Helper lemmas. -/

/-- Looking up the key just written by a Go map assignment yields the new value. -/
theorem mapLookup_mapInsert_self (m : List (String × α)) (k : String) (v : α) :
    mapLookup (mapInsert m k v) k = some v := by
  induction m with
  | nil => simp [mapInsert, mapLookup]
  | cons p rest ih =>
    rcases p with ⟨k1, w⟩
    by_cases h : k1 = k
    · simpa [mapInsert, mapLookup, h] using ih
    · simpa [mapInsert, mapLookup, h] using ih

/-- A Go map assignment leaves every other key's binding unchanged. -/
theorem mapLookup_mapInsert_ne (m : List (String × α)) (k k1 : String) (v : α)
    (h : k1 ≠ k) : mapLookup (mapInsert m k v) k1 = mapLookup m k1 := by
  induction m with
  | nil => simp [mapInsert, mapLookup, Ne.symm h]
  | cons p rest ih =>
    rcases p with ⟨k2, w⟩
    simp only [mapInsert, List.filter_cons] at ih ⊢
    by_cases h2 : k2 = k
    · simp [h2, Ne.symm h, mapLookup, ih]
    · by_cases h3 : k2 = k1
      · simp [h2, h3, h, mapLookup]
      · simp [h2, h3, mapLookup, ih]

/-- A still-valid snapshot makes `refreshState` a no-op, whatever the state
endpoint would answer. -/
theorem refreshState_fresh (env : Env) (s : ClientState)
    (h : s.lastRefresh + stateRefreshRate > env.now) :
    refreshState env s = (s, none) := by
  simp [refreshState, h]

/-- A due refresh whose state fetch fails returns the failure and leaves the
state untouched. -/
theorem refreshState_failure (env : Env) (s : ClientState) (msg : String)
    (hdue : s.lastRefresh + stateRefreshRate ≤ env.now)
    (hfail : env.fetchStateResult = .error msg) :
    refreshState env s = (s, some (.fetchFailure msg)) := by
  have h : ¬ (s.lastRefresh + stateRefreshRate > env.now) := by omega
  simp [refreshState, h, hfail]

/-- An identity fetch never touches the flag maps, the global overrides, or
the refresh timestamp: only the identity cache can change. -/
theorem fetchIdentity_preserves_snapshot (env : Env) (s : ClientState) (idf : String) :
    (fetchIdentity env s idf).1.flags = s.flags ∧
    (fetchIdentity env s idf).1.flagsByID = s.flagsByID ∧
    (fetchIdentity env s idf).1.overrides = s.overrides ∧
    (fetchIdentity env s idf).1.lastRefresh = s.lastRefresh := by
  have hmiss : (fetchIdentityMiss env s idf).1.flags = s.flags ∧
      (fetchIdentityMiss env s idf).1.flagsByID = s.flagsByID ∧
      (fetchIdentityMiss env s idf).1.overrides = s.overrides ∧
      (fetchIdentityMiss env s idf).1.lastRefresh = s.lastRefresh := by
    unfold fetchIdentityMiss
    cases h : env.fetchIdentityResult idf <;> simp
  unfold fetchIdentity
  cases h : mapLookup s.identities idf with
  | none => simpa using hmiss
  | some i =>
    by_cases hs : i.isStale env.now
    · simpa [hs] using hmiss
    · simp [hs]

/-- The typed entry points first run `refreshState`, discard its error, and
continue with their body on the refreshed state (Go lines 133–134). -/
theorem BoolFlag_succ (fuel : Nat) (env : Env) (s : ClientState) (opts : FlagOptions) :
    BoolFlag (fuel + 1) env s opts =
      BoolFlagBodyWith (clientEval fuel) env (refreshState env s).1 opts := rfl

/-- NumberFlag unfolding (Go lines 240–241). -/
theorem NumberFlag_succ (fuel : Nat) (env : Env) (s : ClientState) (opts : FlagOptions) :
    NumberFlag (fuel + 1) env s opts =
      NumberFlagBodyWith (clientEval fuel) env (refreshState env s).1 opts := rfl

/-- StringFlag unfolding (Go lines 347–348). -/
theorem StringFlag_succ (fuel : Nat) (env : Env) (s : ClientState) (opts : FlagOptions) :
    StringFlag (fuel + 1) env s opts =
      StringFlagBodyWith (clientEval fuel) env (refreshState env s).1 opts := rfl

/-- C4: if `refreshState` attempts a refresh and the state fetch fails, the
whole client state — flags, flagsByID, overrides, the identity cache and
`lastRefresh` — is exactly as before the failed attempt, so every subsequent
evaluation answers identically to before it. -/
theorem C4_refresh_failure_preserves_state :
    ∀ (env : Env) (s : ClientState) (msg : String),
      s.lastRefresh + stateRefreshRate ≤ env.now →
      env.fetchStateResult = .error msg →
      refreshState env s = (s, some (.fetchFailure msg)) ∧
      (refreshState env s).1.flags = s.flags ∧
      (refreshState env s).1.flagsByID = s.flagsByID ∧
      (refreshState env s).1.overrides = s.overrides ∧
      (refreshState env s).1.identities = s.identities ∧
      (refreshState env s).1.lastRefresh = s.lastRefresh ∧
      (∀ fuel env2 opts,
        BoolFlag fuel env2 (refreshState env s).1 opts = BoolFlag fuel env2 s opts) ∧
      (∀ fuel env2 opts,
        NumberFlag fuel env2 (refreshState env s).1 opts = NumberFlag fuel env2 s opts) ∧
      (∀ fuel env2 opts,
        StringFlag fuel env2 (refreshState env s).1 opts = StringFlag fuel env2 s opts) := by
  intro env s msg hdue hfail
  have h := refreshState_failure env s msg hdue hfail
  rw [h]
  simp

/-- Witness for C4 on concrete data: a due refresh against a failing state
endpoint returns the failure and the state unchanged. -/
theorem C4_witness :
    refreshState envDue stateW = (stateW, some (.fetchFailure "boom")) :=
  (C4_refresh_failure_preserves_state envDue stateW "boom" (by decide) (by decide)).1

/-- C8: a state refresh triggered at `now < lastRefresh + 60s` is a no-op for
any environment (so the state endpoint's answer is irrelevant); at
`now ≥ lastRefresh + 60s` the fetch is performed: its failure is returned
with the state retained, and on success the snapshot is swapped in with
`lastRefresh = now`. -/
theorem C8_refresh_time_window :
    ∀ (env : Env) (s : ClientState),
      (env.now < s.lastRefresh + stateRefreshRate → refreshState env s = (s, none)) ∧
      (env.now ≥ s.lastRefresh + stateRefreshRate →
        (∀ msg, env.fetchStateResult = .error msg →
          refreshState env s = (s, some (.fetchFailure msg))) ∧
        (∀ resp, env.fetchStateResult = .ok resp →
          (refreshState env s).2 = none ∧
          (refreshState env s).1.lastRefresh = env.now ∧
          (refreshState env s).1.flags = resp.flags.foldl (fun m f => mapInsert m f.key f) [] ∧
          (refreshState env s).1.flagsByID = resp.flags.foldl (fun m f => mapInsert m f.id f) [] ∧
          (refreshState env s).1.overrides = resp.overrides.foldl (fun m o => mapInsert m o.key o) [])) := by
  intro env s
  constructor
  · intro h
    exact refreshState_fresh env s (by omega)
  · intro h
    constructor
    · intro msg hm
      exact refreshState_failure env s msg (by omega) hm
    · intro resp hr
      have hnot : ¬ (s.lastRefresh + stateRefreshRate > env.now) := by omega
      simp [refreshState, hnot, hr]

/-- Witness for C8 on concrete data: a due refresh with a succeeding state
endpoint installs the rebuilt snapshot and stamps `lastRefresh = now`. -/
theorem C8_witness :
    (refreshState envDueOk stateW).2 = none ∧
    (refreshState envDueOk stateW).1.lastRefresh = envDueOk.now ∧
    (refreshState envDueOk stateW).1.flags = respW.flags.foldl (fun m f => mapInsert m f.key f) [] ∧
    (refreshState envDueOk stateW).1.flagsByID = respW.flags.foldl (fun m f => mapInsert m f.id f) [] ∧
    (refreshState envDueOk stateW).1.overrides = respW.overrides.foldl (fun m o => mapInsert m o.key o) [] :=
  ((C8_refresh_time_window envDueOk stateW).2 (by decide)).2 respW (by decide)

/-- C3 counterexample: at a concrete input whose snapshot is due for refresh
and whose state fetch fails, `BoolFlag` does *not* return the failure — it
returns `(true, none)`, the flag value from the retained stale snapshot.
(`refreshState` itself does return the failure, but line 134 discards it.) -/
theorem C3_counterexample :
    stateW.lastRefresh + stateRefreshRate ≤ envDue.now ∧
    envDue.fetchStateResult = .error "boom" ∧
    (refreshState envDue stateW).2 = some (.fetchFailure "boom") ∧
    (BoolFlag 1 envDue stateW ⟨"bflag", ""⟩).2 = (true, none) := by decide

/-- C3 amended: when an evaluation call triggers a refresh whose state fetch
fails, `refreshState` returns the failure but the typed entry points discard
it (`s.refreshState()` at Go lines 134, 241, 348) and evaluate against the
retained stale snapshot; the failure is never the evaluation's error result
unless the body independently produces one. -/
theorem C3_amended_refresh_failure_swallowed :
    ∀ (fuel : Nat) (env : Env) (s : ClientState) (opts : FlagOptions) (msg : String),
      s.lastRefresh + stateRefreshRate ≤ env.now →
      env.fetchStateResult = .error msg →
      refreshState env s = (s, some (.fetchFailure msg)) ∧
      BoolFlag (fuel + 1) env s opts = BoolFlagBodyWith (clientEval fuel) env s opts ∧
      NumberFlag (fuel + 1) env s opts = NumberFlagBodyWith (clientEval fuel) env s opts ∧
      StringFlag (fuel + 1) env s opts = StringFlagBodyWith (clientEval fuel) env s opts := by
  intro fuel env s opts msg hdue hfail
  have h := refreshState_failure env s msg hdue hfail
  exact ⟨h, by rw [BoolFlag_succ, h], by rw [NumberFlag_succ, h], by rw [StringFlag_succ, h]⟩

/-- Witness for the amended C3 on concrete data. -/
theorem C3_amended_witness :
    refreshState envDue stateW = (stateW, some (.fetchFailure "boom")) ∧
    BoolFlag 1 envDue stateW ⟨"bflag", ""⟩ = BoolFlagBodyWith (clientEval 0) envDue stateW ⟨"bflag", ""⟩ ∧
    NumberFlag 1 envDue stateW ⟨"bflag", ""⟩ = NumberFlagBodyWith (clientEval 0) envDue stateW ⟨"bflag", ""⟩ ∧
    StringFlag 1 envDue stateW ⟨"bflag", ""⟩ = StringFlagBodyWith (clientEval 0) envDue stateW ⟨"bflag", ""⟩ :=
  C3_amended_refresh_failure_swallowed 0 envDue stateW ⟨"bflag", ""⟩ "boom" (by decide) (by decide)

/-- C2: with a non-empty identifier and a failing identity fetch, `BoolFlag`
swallows the failure and returns `(false, nil)` (Go line 165), while
`NumberFlag` and `StringFlag` propagate it as their error result together
with the zero value of their type (Go lines 272, 379). -/
theorem C2_identity_failure_asymmetry :
    ∀ (fuel : Nat) (env : Env) (s s1 : ClientState) (idf : String) (e : Err)
      (keyB keyN keyS : String) (fB fN fS : Flag),
      s.lastRefresh + stateRefreshRate > env.now →
      idf ≠ "" →
      fetchIdentity env s idf = (s1, .error e) →
      mapLookup s.flags keyB = some fB → fB.type = typeBoolean →
      mapLookup s.flags keyN = some fN → fN.type = typeNumber →
      mapLookup s.flags keyS = some fS → fS.type = typeString →
      BoolFlag (fuel + 1) env s ⟨keyB, idf⟩ = (s1, (false, none)) ∧
      NumberFlag (fuel + 1) env s ⟨keyN, idf⟩ = (s1, (0, some e)) ∧
      StringFlag (fuel + 1) env s ⟨keyS, idf⟩ = (s1, ("", some e)) := by
  intro fuel env s s1 idf e keyB keyN keyS fB fN fS hfresh hidf hfetch hB htB hN htN hS htS
  have hr := refreshState_fresh env s hfresh
  refine ⟨?_, ?_, ?_⟩
  · rw [BoolFlag_succ, hr]
    simp [BoolFlagBodyWith, hB, htB, boolIdentityPhase, hidf, hfetch]
  · rw [NumberFlag_succ, hr]
    simp [NumberFlagBodyWith, hN, htN, numberIdentityPhase, hidf, hfetch]
  · rw [StringFlag_succ, hr]
    simp [StringFlagBodyWith, hS, htS, stringIdentityPhase, hidf, hfetch]

/-- Witness for C2 on concrete data: with an empty identity cache and a
failing identity endpoint, `BoolFlag` answers `(false, nil)` while
`NumberFlag` and `StringFlag` answer the fetch failure. -/
theorem C2_witness :
    BoolFlag 1 envIdFail stateNoId ⟨"bflag", "user_123"⟩ = (stateNoId, (false, none)) ∧
    NumberFlag 1 envIdFail stateNoId ⟨"nflag", "user_123"⟩ = (stateNoId, (0, some (.fetchFailure "down"))) ∧
    StringFlag 1 envIdFail stateNoId ⟨"sflag", "user_123"⟩ = (stateNoId, ("", some (.fetchFailure "down"))) :=
  C2_identity_failure_asymmetry 0 envIdFail stateNoId stateNoId "user_123"
    (.fetchFailure "down") "bflag" "nflag" "sflag" bFlag nFlag sFlag
    (by decide) (by decide) (by decide) (by decide) (by decide)
    (by decide) (by decide) (by decide) (by decide)

/-- C7 counterexample: at `t = t0 + 5s` exactly, the claim demands a
re-fetch, but `isStale` uses strict `Before`, so the entry cached at `t0 = 0`
is still served at `t = 5` — the external collaborator (which would answer a
different record with id `"fresh"`) is not consulted and the cache entry is
not replaced. -/
theorem C7_counterexample :
    identW.fetchedAt + identityRefreshRate ≤ env7.now ∧
    env7.fetchIdentityResult "user_123" = .ok ⟨"fresh", "user_123", [], 0⟩ ∧
    fetchIdentity env7 stateW "user_123" = (stateW, .ok identW) := by decide

/-- C7 amended: a cached identity entry stamped at `t0` is served without an
external call for any request at `t ≤ t0 + 5s` (boundary included, since Go
`Before` is strict), and for `t > t0 + 5s` the external collaborator is
consulted: its failure is returned with the cache unchanged, and its answer
replaces the entry (stamped `fetchedAt = t`). -/
theorem C7_amended_identity_window :
    ∀ (env : Env) (s : ClientState) (idf : String) (i : Identity),
      mapLookup s.identities idf = some i →
      (env.now ≤ i.fetchedAt + identityRefreshRate → fetchIdentity env s idf = (s, .ok i)) ∧
      (env.now > i.fetchedAt + identityRefreshRate →
        fetchIdentity env s idf = fetchIdentityMiss env s idf ∧
        (∀ msg, env.fetchIdentityResult idf = .error msg →
          fetchIdentity env s idf = (s, .error (.fetchFailure msg))) ∧
        (∀ raw, env.fetchIdentityResult idf = .ok raw →
          fetchIdentity env s idf =
            ({ s with identities :=
                 mapInsert s.identities raw.identifier { raw with fetchedAt := env.now } },
             .ok { raw with fetchedAt := env.now }))) := by
  intro env s idf i hlook
  constructor
  · intro h
    simp only [identityRefreshRate] at h
    have hstale : i.isStale env.now = false := by
      simp only [Identity.isStale, identityRefreshRate, decide_eq_false_iff_not, not_lt]
      omega
    simp [fetchIdentity, hlook, hstale]
  · intro h
    simp only [identityRefreshRate] at h
    have hstale : i.isStale env.now = true := by
      simp only [Identity.isStale, identityRefreshRate, decide_eq_true_eq]
      omega
    refine ⟨by simp [fetchIdentity, hlook, hstale], ?_, ?_⟩
    · intro msg hm
      simp [fetchIdentity, hlook, hstale, fetchIdentityMiss, hm]
    · intro raw hraw
      simp [fetchIdentity, hlook, hstale, fetchIdentityMiss, hraw]

/-- Witness for the amended C7 on concrete data: at time 9 the entry cached
at time 0 is stale, the collaborator is consulted, and its answer replaces
the entry stamped with the current time. -/
theorem C7_amended_witness :
    fetchIdentity envLate stateW "user_123" =
      ({ stateW with
          identities := mapInsert stateW.identities identW.identifier { identW with fetchedAt := 9 } },
       .ok { identW with fetchedAt := 9 }) :=
  (((C7_amended_identity_window envLate stateW "user_123" identW (by decide)).2
      (by decide)).2.2) identW (by decide)

/-- C10: a successful cache-miss identity fetch inserts the new entry under
the *response's* `Identifier` field, not under the requested identifier
(Go line 611). Consequently, when the response's identifier equals the
requested one, a later request within the freshness window is served from
cache; when it differs, the requested identifier is still absent from the
cache and a later request takes the cache-miss path again. -/
theorem C10_insert_under_response_identifier :
    ∀ (env : Env) (s : ClientState) (idf : String) (raw : Identity),
      mapLookup s.identities idf = none →
      env.fetchIdentityResult idf = .ok raw →
      fetchIdentity env s idf =
        ({ s with identities :=
             mapInsert s.identities raw.identifier { raw with fetchedAt := env.now } },
         .ok { raw with fetchedAt := env.now }) ∧
      (raw.identifier = idf →
        ∀ env1 : Env, env1.now ≤ env.now + identityRefreshRate →
          fetchIdentity env1 (fetchIdentity env s idf).1 idf =
            ((fetchIdentity env s idf).1, .ok { raw with fetchedAt := env.now })) ∧
      (raw.identifier ≠ idf →
        mapLookup (fetchIdentity env s idf).1.identities idf = mapLookup s.identities idf ∧
        ∀ env1 : Env, fetchIdentity env1 (fetchIdentity env s idf).1 idf =
          fetchIdentityMiss env1 (fetchIdentity env s idf).1 idf) := by
  intro env s idf raw hlook hraw
  have hA : fetchIdentity env s idf =
      ({ s with identities :=
           mapInsert s.identities raw.identifier { raw with fetchedAt := env.now } },
       .ok { raw with fetchedAt := env.now }) := by
    simp [fetchIdentity, hlook, fetchIdentityMiss, hraw]
  refine ⟨hA, ?_, ?_⟩
  · intro hid env1 h1
    subst hid
    rw [hA]
    have hfound := mapLookup_mapInsert_self s.identities raw.identifier
      { raw with fetchedAt := env.now }
    have hstale : ({ raw with fetchedAt := env.now } : Identity).isStale env1.now = false := by
      simp only [Identity.isStale, decide_eq_false_iff_not, not_lt]
      simp only [identityRefreshRate] at h1 ⊢
      omega
    simp [fetchIdentity, hfound, hstale]
  · intro hid
    rw [hA]
    have hmiss : mapLookup
        (mapInsert s.identities raw.identifier { raw with fetchedAt := env.now }) idf =
        mapLookup s.identities idf :=
      mapLookup_mapInsert_ne s.identities raw.identifier idf _ (Ne.symm hid)
    refine ⟨hmiss, ?_⟩
    intro env1
    simp [fetchIdentity, hmiss, hlook]

/-- C5 counterexample: evaluating flag `"badop"`, whose single dynamic rule
uses the operator `"<"` against a boolean-typed referenced flag, ends in
`goPanic`: Go looks up `boolOperations["<"]`, gets the nil function and
calls it — a run-time panic, not one of the typed errors the claim
promises. -/
theorem C5_counterexample :
    boolOperations "<" = none ∧
    (BoolFlag 2 envW stateW ⟨"badop", ""⟩).2 = (false, some Err.goPanic) := by decide

/-- C5 amended: an operator absent from the referenced flag's type's
operator table, or a comparison value whose runtime kind differs from the
referenced flag's declared type, or a matched rule's result value whose
runtime kind differs from the evaluating entry point's type, causes a Go
run-time panic (`goPanic`) — not a typed error returned to the caller. -/
theorem C5_amended_panic_not_typed_error :
    (∀ (ev : Evaluator) (env : Env) (s s1 : ClientState) (idf : String)
       (rule : DynamicRule) (ef : Flag) (v : Bool),
      mapLookup s.flagsByID rule.expression.flagID = some ef →
      ef.type = typeBoolean →
      ev.boolFlag env s ⟨ef.key, idf⟩ = (s1, (v, none)) →
      (boolOperations rule.expression.op = none ∨ ∀ b, rule.expression.value ≠ .vBool b) →
      evalRuleExprWith ev env s idf rule = (s1, .error .goPanic)) ∧
    (∀ (ev : Evaluator) (env : Env) (s s1 : ClientState) (idf : String)
       (rule : DynamicRule) (ef : Flag) (v : Int),
      mapLookup s.flagsByID rule.expression.flagID = some ef →
      ef.type = typeNumber →
      ev.numberFlag env s ⟨ef.key, idf⟩ = (s1, (v, none)) →
      (numberOperations rule.expression.op = none ∨ ∀ n, rule.expression.value ≠ .vNumber n) →
      evalRuleExprWith ev env s idf rule = (s1, .error .goPanic)) ∧
    (∀ (ev : Evaluator) (env : Env) (s s1 : ClientState) (idf : String)
       (rule : DynamicRule) (ef : Flag) (v : String),
      mapLookup s.flagsByID rule.expression.flagID = some ef →
      ef.type = typeString →
      ev.stringFlag env s ⟨ef.key, idf⟩ = (s1, (v, none)) →
      (stringOperations rule.expression.op = none ∨ ∀ w, rule.expression.value ≠ .vString w) →
      evalRuleExprWith ev env s idf rule = (s1, .error .goPanic)) ∧
    (∀ (ev : Evaluator) (env : Env) (s s1 : ClientState) (idf : String)
       (rule : DynamicRule) (rest : List DynamicRule),
      evalRuleExprWith ev env s idf rule = (s1, .ok true) →
      (∀ b, rule.value ≠ Value.vBool b) →
      boolRulesWith ev env s idf (rule :: rest) = (s1, .failed .goPanic)) := by
  refine ⟨?_, ?_, ?_, ?_⟩
  · intro ev env s s1 idf rule ef v hlook hty hcall hbad
    cases hv : rule.expression.value with
    | vBool b =>
      rcases hbad with hop | hno
      · simp [evalRuleExprWith, hlook, hty, hcall, hv, hop]
      · exact absurd hv (hno b)
    | vNumber n => simp [evalRuleExprWith, hlook, hty, hcall, hv]
    | vString w => simp [evalRuleExprWith, hlook, hty, hcall, hv]
  · intro ev env s s1 idf rule ef v hlook hty hcall hbad
    have hne1 : ¬ (typeNumber = typeBoolean) := by decide
    cases hv : rule.expression.value with
    | vNumber n =>
      rcases hbad with hop | hno
      · simp [evalRuleExprWith, hlook, hty, hne1, hcall, hv, hop]
      · exact absurd hv (hno n)
    | vBool b => simp [evalRuleExprWith, hlook, hty, hne1, hcall, hv]
    | vString w => simp [evalRuleExprWith, hlook, hty, hne1, hcall, hv]
  · intro ev env s s1 idf rule ef v hlook hty hcall hbad
    have hne1 : ¬ (typeString = typeBoolean) := by decide
    have hne2 : ¬ (typeString = typeNumber) := by decide
    cases hv : rule.expression.value with
    | vString w =>
      rcases hbad with hop | hno
      · simp [evalRuleExprWith, hlook, hty, hne1, hne2, hcall, hv, hop]
      · exact absurd hv (hno w)
    | vBool b => simp [evalRuleExprWith, hlook, hty, hne1, hne2, hcall, hv]
    | vNumber n => simp [evalRuleExprWith, hlook, hty, hne1, hne2, hcall, hv]
  · intro ev env s s1 idf rule rest hexpr hno
    cases hv : rule.value with
    | vBool b => exact absurd hv (hno b)
    | vNumber n => simp [boolRulesWith, hexpr, hv]
    | vString w => simp [boolRulesWith, hexpr, hv]

/-- Witness for the amended C5 on concrete data: the `"<"` operator on a
boolean referenced flag panics during rule-expression evaluation. -/
theorem C5_amended_witness :
    evalRuleExprWith (clientEval 1) envW stateW ""
      ⟨⟨"f1", "<", .vBool true⟩, .vBool true⟩ = (stateW, .error .goPanic) :=
  C5_amended_panic_not_typed_error.1 (clientEval 1) envW stateW stateW ""
    ⟨⟨"f1", "<", .vBool true⟩, .vBool true⟩ bFlag true
    (by decide) (by decide) (by decide) (Or.inl (by decide))

/-- C6 counterexample: flag `"missref"`, whose single dynamic rule references
the flag id `"zzz"` absent from the id-indexed snapshot, makes the evaluation
end in `goPanic`: Go reads `s.flagsByID[...]` without an ok-check, gets nil
and dereferences `expressionFlag.Key` — a run-time panic, not an error
returned to the caller as the claim's not-found clause states. -/
theorem C6_counterexample :
    mapLookup stateW.flagsByID "zzz" = none ∧
    (BoolFlag 2 envW stateW ⟨"missref", ""⟩).2 = (false, some Err.goPanic) := by decide

/-- C6 amended: a dynamic rule whose referenced flag id is absent from the
id-indexed snapshot causes a nil-pointer run-time panic (`goPanic`), not a
returned error; a *failing recursive evaluation* of a found referenced flag,
however, does abort the loop and is returned as an error to the original
caller of the typed entry point. -/
theorem C6_amended_missing_ref_panics :
    (∀ (ev : Evaluator) (env : Env) (s : ClientState) (idf : String) (rule : DynamicRule),
      mapLookup s.flagsByID rule.expression.flagID = none →
      evalRuleExprWith ev env s idf rule = (s, .error .goPanic)) ∧
    (∀ (ev : Evaluator) (env : Env) (s s1 : ClientState) (idf : String)
       (rule : DynamicRule) (ef : Flag) (v : Bool) (e : Err),
      mapLookup s.flagsByID rule.expression.flagID = some ef →
      ef.type = typeBoolean →
      ev.boolFlag env s ⟨ef.key, idf⟩ = (s1, (v, some e)) →
      evalRuleExprWith ev env s idf rule = (s1, .error e)) ∧
    (∀ (ev : Evaluator) (env : Env) (s s1 : ClientState) (idf : String)
       (rule : DynamicRule) (ef : Flag) (v : Int) (e : Err),
      mapLookup s.flagsByID rule.expression.flagID = some ef →
      ef.type = typeNumber →
      ev.numberFlag env s ⟨ef.key, idf⟩ = (s1, (v, some e)) →
      evalRuleExprWith ev env s idf rule = (s1, .error e)) ∧
    (∀ (ev : Evaluator) (env : Env) (s s1 : ClientState) (idf : String)
       (rule : DynamicRule) (ef : Flag) (v : String) (e : Err),
      mapLookup s.flagsByID rule.expression.flagID = some ef →
      ef.type = typeString →
      ev.stringFlag env s ⟨ef.key, idf⟩ = (s1, (v, some e)) →
      evalRuleExprWith ev env s idf rule = (s1, .error e)) ∧
    (∀ (ev : Evaluator) (env : Env) (s s1 : ClientState) (idf : String)
       (rule : DynamicRule) (rest : List DynamicRule) (e : Err),
      evalRuleExprWith ev env s idf rule = (s1, .error e) →
      boolRulesWith ev env s idf (rule :: rest) = (s1, .failed e)) ∧
    (∀ (fuel : Nat) (env : Env) (s s1 : ClientState) (opts : FlagOptions) (f : Flag) (e : Err),
      s.lastRefresh + stateRefreshRate > env.now →
      mapLookup s.flags opts.key = some f →
      f.type = typeBoolean →
      opts.identifier = "" →
      mapLookup s.overrides opts.key = none →
      boolRulesWith (clientEval fuel) env s opts.identifier f.dynamicRules = (s1, .failed e) →
      BoolFlag (fuel + 1) env s opts = (s1, (false, some e))) := by
  refine ⟨?_, ?_, ?_, ?_, ?_, ?_⟩
  · intro ev env s idf rule hlook
    simp [evalRuleExprWith, hlook]
  · intro ev env s s1 idf rule ef v e hlook hty hcall
    simp [evalRuleExprWith, hlook, hty, hcall]
  · intro ev env s s1 idf rule ef v e hlook hty hcall
    have hne1 : ¬ (typeNumber = typeBoolean) := by decide
    simp [evalRuleExprWith, hlook, hty, hne1, hcall]
  · intro ev env s s1 idf rule ef v e hlook hty hcall
    have hne1 : ¬ (typeString = typeBoolean) := by decide
    have hne2 : ¬ (typeString = typeNumber) := by decide
    simp [evalRuleExprWith, hlook, hty, hne1, hne2, hcall]
  · intro ev env s s1 idf rule rest e hexpr
    simp [boolRulesWith, hexpr]
  · intro fuel env s s1 opts f e hfresh hflag hty hid hov hrules
    rw [BoolFlag_succ, refreshState_fresh env s hfresh]
    rw [hid] at hrules
    simp [BoolFlagBodyWith, hflag, hty, boolIdentityPhase, hid,
          boolAfterIdentityWith, hov, hrules]

/-- Witness for the amended C6 on concrete data: a rule referencing the
absent flag id `"zzz"` panics during rule-expression evaluation. -/
theorem C6_amended_witness :
    evalRuleExprWith (clientEval 1) envW stateW ""
      ⟨⟨"zzz", "==", .vBool true⟩, .vBool true⟩ = (stateW, .error .goPanic) :=
  C6_amended_missing_ref_panics.1 (clientEval 1) envW stateW ""
    ⟨⟨"zzz", "==", .vBool true⟩, .vBool true⟩ (by decide)

/-- C9: dynamic rules are tested in declared order. A rule whose comparison
evaluates true determines the loop's outcome — its `resultValue` (read
through the evaluating entry point's type assertion) — and the remaining
rules, which occur only on the left-hand side of the equation, are never
evaluated and cannot affect the result. A false comparison passes control to
the remaining rules in declared order. Stated for the rule loops of all
three typed entry points. -/
theorem C9_first_match_wins :
    (∀ (ev : Evaluator) (env : Env) (s s1 : ClientState) (idf : String)
       (rule : DynamicRule) (rest : List DynamicRule),
      evalRuleExprWith ev env s idf rule = (s1, .ok true) →
      boolRulesWith ev env s idf (rule :: rest) =
        (s1, match rule.value with
             | .vBool v => .matched v
             | _ => .failed .goPanic)) ∧
    (∀ (ev : Evaluator) (env : Env) (s s1 : ClientState) (idf : String)
       (rule : DynamicRule) (rest : List DynamicRule),
      evalRuleExprWith ev env s idf rule = (s1, .ok false) →
      boolRulesWith ev env s idf (rule :: rest) = boolRulesWith ev env s1 idf rest) ∧
    (∀ (ev : Evaluator) (env : Env) (s s1 : ClientState) (idf : String)
       (rule : DynamicRule) (rest : List DynamicRule),
      evalRuleExprWith ev env s idf rule = (s1, .ok true) →
      numberRulesWith ev env s idf (rule :: rest) =
        (s1, match rule.value with
             | .vNumber v => .matched v
             | _ => .failed .goPanic)) ∧
    (∀ (ev : Evaluator) (env : Env) (s s1 : ClientState) (idf : String)
       (rule : DynamicRule) (rest : List DynamicRule),
      evalRuleExprWith ev env s idf rule = (s1, .ok false) →
      numberRulesWith ev env s idf (rule :: rest) = numberRulesWith ev env s1 idf rest) ∧
    (∀ (ev : Evaluator) (env : Env) (s s1 : ClientState) (idf : String)
       (rule : DynamicRule) (rest : List DynamicRule),
      evalRuleExprWith ev env s idf rule = (s1, .ok true) →
      stringRulesWith ev env s idf (rule :: rest) =
        (s1, match rule.value with
             | .vString v => .matched v
             | _ => .failed .goPanic)) ∧
    (∀ (ev : Evaluator) (env : Env) (s s1 : ClientState) (idf : String)
       (rule : DynamicRule) (rest : List DynamicRule),
      evalRuleExprWith ev env s idf rule = (s1, .ok false) →
      stringRulesWith ev env s idf (rule :: rest) = stringRulesWith ev env s1 idf rest) := by
  refine ⟨?_, ?_, ?_, ?_, ?_, ?_⟩
  · intro ev env s s1 idf rule rest hexpr
    cases hv : rule.value <;> simp [boolRulesWith, hexpr, hv]
  · intro ev env s s1 idf rule rest hexpr
    simp [boolRulesWith, hexpr]
  · intro ev env s s1 idf rule rest hexpr
    cases hv : rule.value <;> simp [numberRulesWith, hexpr, hv]
  · intro ev env s s1 idf rule rest hexpr
    simp [numberRulesWith, hexpr]
  · intro ev env s s1 idf rule rest hexpr
    cases hv : rule.value <;> simp [stringRulesWith, hexpr, hv]
  · intro ev env s s1 idf rule rest hexpr
    simp [stringRulesWith, hexpr]

/-- Witness for C9 on concrete data (the spec's `tier` example): with two
rules both matching, the loop returns the first rule's `"beta"`, never the
second rule's `"never"`. -/
theorem C9_witness :
    stringRulesWith (clientEval 1) envW stateW ""
      [⟨⟨"f1", "==", .vBool true⟩, .vString "beta"⟩,
       ⟨⟨"f1", "==", .vBool true⟩, .vString "never"⟩] =
      (stateW, .matched "beta") :=
  C9_first_match_wins.2.2.2.2.1 (clientEval 1) envW stateW stateW ""
    ⟨⟨"f1", "==", .vBool true⟩, .vString "beta"⟩
    [⟨⟨"f1", "==", .vBool true⟩, .vString "never"⟩]
    (by decide)

/-- Witness for C10 on concrete data: with an empty cache, fetching
`"user_123"` inserts the response (whose `identifier` field is
`"user_123"`) stamped at the current time. -/
theorem C10_witness :
    fetchIdentity envW stateNoId "user_123" =
      ({ stateNoId with
          identities := mapInsert stateNoId.identities identW.identifier { identW with fetchedAt := 3 } },
       .ok { identW with fetchedAt := 3 }) :=
  (C10_insert_under_response_identifier envW stateNoId "user_123" identW
    (by decide) (by decide)).1

/-- C1: for each typed entry point, a flag key present in the snapshot with
the matching declared type, a non-empty identifier and a successful identity
fetch, the returned value follows the precedence chain of `precedenceSpec`:
the identity's override for the key if present (short-circuiting the global
override, the dynamic rules and the default, which are arbitrary here),
otherwise the global override for the key if present (short-circuiting the
rules and the default), otherwise the dynamic-rule chain's outcome if a rule
matched (or its failure), otherwise the flag's stored default value. -/
theorem C1_precedence_chain :
    (∀ (fuel : Nat) (env : Env) (s s1 : ClientState) (opts : FlagOptions)
       (f : Flag) (ident : Identity),
      s.lastRefresh + stateRefreshRate > env.now →
      mapLookup s.flags opts.key = some f →
      f.type = typeBoolean →
      opts.identifier ≠ "" →
      fetchIdentity env s opts.identifier = (s1, .ok ident) →
      (BoolFlag (fuel + 1) env s opts).2 =
        precedenceSpec assertBool false
          (mapLookup ident.overrides opts.key)
          ((mapLookup s.overrides opts.key).map Override.value)
          (boolRulesWith (clientEval fuel) env s1 opts.identifier f.dynamicRules).2
          f.value) ∧
    (∀ (fuel : Nat) (env : Env) (s s1 : ClientState) (opts : FlagOptions)
       (f : Flag) (ident : Identity),
      s.lastRefresh + stateRefreshRate > env.now →
      mapLookup s.flags opts.key = some f →
      f.type = typeNumber →
      opts.identifier ≠ "" →
      fetchIdentity env s opts.identifier = (s1, .ok ident) →
      (NumberFlag (fuel + 1) env s opts).2 =
        precedenceSpec assertNumber 0
          (mapLookup ident.overrides opts.key)
          ((mapLookup s.overrides opts.key).map Override.value)
          (numberRulesWith (clientEval fuel) env s1 opts.identifier f.dynamicRules).2
          f.value) ∧
    (∀ (fuel : Nat) (env : Env) (s s1 : ClientState) (opts : FlagOptions)
       (f : Flag) (ident : Identity),
      s.lastRefresh + stateRefreshRate > env.now →
      mapLookup s.flags opts.key = some f →
      f.type = typeString →
      opts.identifier ≠ "" →
      fetchIdentity env s opts.identifier = (s1, .ok ident) →
      (StringFlag (fuel + 1) env s opts).2 =
        precedenceSpec assertString ""
          (mapLookup ident.overrides opts.key)
          ((mapLookup s.overrides opts.key).map Override.value)
          (stringRulesWith (clientEval fuel) env s1 opts.identifier f.dynamicRules).2
          f.value) := by
  refine ⟨?_, ?_, ?_⟩
  · intro fuel env s s1 opts f ident hfresh hflag hty hidf hfetch
    have hover : s1.overrides = s.overrides := by
      have h := (fetchIdentity_preserves_snapshot env s opts.identifier).2.2.1
      rw [hfetch] at h
      exact h
    rw [BoolFlag_succ, refreshState_fresh env s hfresh, ← hover]
    cases hio : mapLookup ident.overrides opts.key with
    | some v =>
      simp [BoolFlagBodyWith, hflag, hty, boolIdentityPhase, hidf, hfetch, hio, precedenceSpec]
    | none =>
      cases hgo : mapLookup s1.overrides opts.key with
      | some o =>
        simp [BoolFlagBodyWith, hflag, hty, boolIdentityPhase, hidf, hfetch, hio,
              boolAfterIdentityWith, hgo, precedenceSpec]
      | none =>
        rcases hrules : boolRulesWith (clientEval fuel) env s1 opts.identifier f.dynamicRules
          with ⟨s2, out⟩
        cases out <;>
          simp [BoolFlagBodyWith, hflag, hty, boolIdentityPhase, hidf, hfetch, hio,
                boolAfterIdentityWith, hgo, hrules, precedenceSpec]
  · intro fuel env s s1 opts f ident hfresh hflag hty hidf hfetch
    have hover : s1.overrides = s.overrides := by
      have h := (fetchIdentity_preserves_snapshot env s opts.identifier).2.2.1
      rw [hfetch] at h
      exact h
    rw [NumberFlag_succ, refreshState_fresh env s hfresh, ← hover]
    cases hio : mapLookup ident.overrides opts.key with
    | some v =>
      simp [NumberFlagBodyWith, hflag, hty, numberIdentityPhase, hidf, hfetch, hio, precedenceSpec]
    | none =>
      cases hgo : mapLookup s1.overrides opts.key with
      | some o =>
        simp [NumberFlagBodyWith, hflag, hty, numberIdentityPhase, hidf, hfetch, hio,
              numberAfterIdentityWith, hgo, precedenceSpec]
      | none =>
        rcases hrules : numberRulesWith (clientEval fuel) env s1 opts.identifier f.dynamicRules
          with ⟨s2, out⟩
        cases out <;>
          simp [NumberFlagBodyWith, hflag, hty, numberIdentityPhase, hidf, hfetch, hio,
                numberAfterIdentityWith, hgo, hrules, precedenceSpec]
  · intro fuel env s s1 opts f ident hfresh hflag hty hidf hfetch
    have hover : s1.overrides = s.overrides := by
      have h := (fetchIdentity_preserves_snapshot env s opts.identifier).2.2.1
      rw [hfetch] at h
      exact h
    rw [StringFlag_succ, refreshState_fresh env s hfresh, ← hover]
    cases hio : mapLookup ident.overrides opts.key with
    | some v =>
      simp [StringFlagBodyWith, hflag, hty, stringIdentityPhase, hidf, hfetch, hio, precedenceSpec]
    | none =>
      cases hgo : mapLookup s1.overrides opts.key with
      | some o =>
        simp [StringFlagBodyWith, hflag, hty, stringIdentityPhase, hidf, hfetch, hio,
              stringAfterIdentityWith, hgo, precedenceSpec]
      | none =>
        rcases hrules : stringRulesWith (clientEval fuel) env s1 opts.identifier f.dynamicRules
          with ⟨s2, out⟩
        cases out <;>
          simp [StringFlagBodyWith, hflag, hty, stringIdentityPhase, hidf, hfetch, hio,
                stringAfterIdentityWith, hgo, hrules, precedenceSpec]

/-- Witness for C1 on concrete data: with a fresh snapshot and the cached
identity `identW`, the boolean evaluation of `"bflag"` for `"user_123"`
agrees with the specification's precedence chain (here the identity override
`false` wins over the default `true`). -/
theorem C1_witness :
    (BoolFlag 1 envW stateW ⟨"bflag", "user_123"⟩).2 =
      precedenceSpec assertBool false
        (mapLookup identW.overrides "bflag")
        ((mapLookup stateW.overrides "bflag").map Override.value)
        (boolRulesWith (clientEval 0) envW stateW "user_123" bFlag.dynamicRules).2
        bFlag.value :=
  C1_precedence_chain.1 0 envW stateW stateW ⟨"bflag", "user_123"⟩ bFlag identW
    (by decide) (by decide) (by decide) (by decide) (by decide)

end SwitcherLabs
